import Mathlib

/-!
Verification of the wayback-machine-scraper middleware
(`src/wayback_machine_scraper/middleware.py`, class `WaybackMachineMiddleware`).

The Python code is shallowly embedded below.  Timestamps and epoch values are
modelled as `Int` (every time the code manipulates is a whole number of
seconds: CDX timestamps are parsed with `%Y%m%d%H%M%S` and converted with
`datetime.timestamp()`, which is integral for such datetimes).  Scrapy
requests and responses are modelled by the attributes the middleware actually
reads and writes (`url`, `status`, `meta`, `dont_filter`, body at the level of
its JSON parse).  Fallible Python operations (`int(...)`,
`datetime.strptime`) return `Option`.
-/

namespace WaybackMachine

/-! ### Models of Python primitives -/

/-- Model of Python `str.isdigit()` restricted to ASCII: true iff the string
is nonempty and every character is a decimal digit.  (Unicode digit
characters, which `isdigit` also accepts but `int()` may reject, do not occur
in CDX status codes.) -/
def pyIsdigit (s : String) : Bool :=
  !s.data.isEmpty && s.data.all Char.isDigit

/-- Decimal value of a list of digit characters. -/
def decimalVal (cs : List Char) : Nat :=
  cs.foldl (fun n c => n * 10 + (c.toNat - 48)) 0

/-- Decimal parse of a list of characters: the value iff the list is
nonempty and all digits. -/
def digitsToNat? (cs : List Char) : Option Nat :=
  if !cs.isEmpty && cs.all Char.isDigit then some (decimalVal cs) else none

/-- Model of Python `int(s)` on a string consisting of digits: its decimal
value.  Only used under a `pyIsdigit` guard, where the parse succeeds. -/
def statuscodeVal (s : String) : Nat :=
  (digitsToNat? s.data).getD 0

/-- Model of Python `int(s)` for a general string: an optional sign followed
by digits, `None` (i.e. `ValueError`) otherwise.  Surrounding whitespace and
underscore separators, which Python also tolerates, are not modelled; no
configuration value in the claims uses them. -/
def pyIntOfString (s : String) : Option Int :=
  match s.data with
  | [] => none
  | '-' :: rest => (digitsToNat? rest).map (fun n => -(n : Int))
  | '+' :: rest => (digitsToNat? rest).map (fun n => (n : Int))
  | cs => (digitsToNat? cs).map (fun n => (n : Int))

/-- Model of `s[::-1].zfill(14)[::-1]`: pad the string on the RIGHT with `'0'`
to length 14 (reversing, left-padding with `zfill`, and reversing again pads
on the right; the sign-handling quirk of `zfill` does not trigger because the
reversed string starts with a digit for every `str(int)` output). -/
def zfillRight14 (s : String) : String :=
  if s.data.length < 14 then s ++ String.mk (List.replicate (14 - s.data.length) '0') else s

/-- Gregorian leap-year test, as used by Python's `datetime`. -/
def isLeapYear (y : Nat) : Bool :=
  (y % 4 == 0 && y % 100 != 0) || y % 400 == 0

/-- Number of days in a month of the proleptic Gregorian calendar. -/
def daysInMonth (y m : Nat) : Nat :=
  if m = 2 then (if isLeapYear y then 29 else 28)
  else if m = 4 ∨ m = 6 ∨ m = 9 ∨ m = 11 then 30
  else 31

/-- Days from 1970-01-01 to the given civil date (valid for `y ≥ 1`), the
standard days-from-civil algorithm; models
`datetime(...).replace(tzinfo=timezone.utc).timestamp() / 86400`. -/
def daysFromCivil (y m d : Nat) : Int :=
  let yy : Int := if m ≤ 2 then (y : Int) - 1 else (y : Int)
  let era : Int := yy / 400
  let yoe : Int := yy - era * 400
  let mp : Int := ((m : Int) + 9) % 12
  let doy : Int := (153 * mp + 2) / 5 + (d : Int) - 1
  let doe : Int := yoe * 365 + yoe / 4 - yoe / 100 + doy
  era * 146097 + doe - 719468

/-- Unix epoch seconds of a civil UTC datetime. -/
def epochOf (y mo d h mi s : Nat) : Int :=
  daysFromCivil y mo d * 86400 + h * 3600 + mi * 60 + s

/-- Model of
`datetime.strptime(s, '%Y%m%d%H%M%S').replace(tzinfo=timezone.utc).timestamp()`:
succeeds iff `s` is exactly 14 digits denoting a valid datetime (year 1-9999,
month 1-12, day valid for the month, hour ≤ 23, minute and second ≤ 59 --
Python's `datetime` constructor rejects anything else with `ValueError`), and
returns the Unix epoch seconds. -/
def strptime14 (s : String) : Option Int :=
  let cs := s.toList
  if cs.length = 14 ∧ cs.all Char.isDigit then
    let y := decimalVal (cs.take 4)
    let mo := decimalVal ((cs.drop 4).take 2)
    let d := decimalVal ((cs.drop 6).take 2)
    let h := decimalVal ((cs.drop 8).take 2)
    let mi := decimalVal ((cs.drop 10).take 2)
    let sec := decimalVal ((cs.drop 12).take 2)
    if 1 ≤ y ∧ y ≤ 9999 ∧ 1 ≤ mo ∧ mo ≤ 12 ∧ 1 ≤ d ∧ d ≤ daysInMonth y mo
        ∧ h ≤ 23 ∧ mi ≤ 59 ∧ sec ≤ 59 then
      some (epochOf y mo d h mi sec)
    else none
  else none

/-! ### Time-range configuration (`set_time_range`, middleware.py lines 34-55) -/

/-- A Python value supplied as one bound of `WAYBACK_MACHINE_TIME_RANGE`.
`pfloat ip frac` models the float whose `str()` is `"<ip>.<frac>"`; every
Python float prints with a `'.'` (or an exponent marker), so `int(str(f))`
raises `ValueError` for every float. -/
inductive PyTimeValue where
  | pint (n : Int)
  | pfloat (ip : Int) (frac : String)
  | pstr (s : String)
deriving DecidableEq

/-- Model of `str(f)` for the float `pfloat ip frac`. -/
def pyStrOfFloat (ip : Int) (frac : String) : String :=
  toString ip ++ "." ++ frac

/-- Model of `int(str(time))` in `parse_time` for each input kind:
`int(str(n)) = n` for an int; for a float the printed form contains `'.'` so
`int` raises; for a string, `int` parses it as a decimal integer. -/
def intOfPyValue : PyTimeValue → Option Int
  | .pint n => some n
  | .pfloat ip frac => pyIntOfString (pyStrOfFloat ip frac)
  | .pstr s => pyIntOfString s

/-- Translation of the nested `parse_time` function of `set_time_range`
(middleware.py lines 38-50): convert to `int`; values strictly between `10^8`
and `10^13` are returned directly as epoch seconds; anything else is printed,
padded to 14 characters, and parsed as a `%Y%m%d%H%M%S` timestamp.  `none`
models the `ValueError`/`TypeError` path that returns Python `None`. -/
def parse_time (t : PyTimeValue) : Option Int :=
  match intOfPyValue t with
  | none => none
  | some n =>
    if 10 ^ 8 < n ∧ n < 10 ^ 13 then some n
    else strptime14 (zfillRight14 (toString n))

/-- The `WAYBACK_MACHINE_TIME_RANGE` setting: a single value or a
two-element tuple/list. -/
inductive TimeRangeConfig where
  | single (v : PyTimeValue)
  | pair (a b : PyTimeValue)
deriving DecidableEq

/-- Translation of `set_time_range` (middleware.py lines 34-55): a non-tuple
value is duplicated into `(v, v)`; both components are parsed with
`parse_time`; if either is `None` the middleware raises `NotConfigured`
(modelled by `none`), otherwise `self.time_range` is the parsed pair. -/
def set_time_range (c : TimeRangeConfig) : Option (Int × Int) :=
  let p := match c with
    | .single v => (v, v)
    | .pair a b => (a, b)
  match parse_time p.1, parse_time p.2 with
  | some ta, some tb => some (ta, tb)
  | _, _ => none

/-! ### The snapshot data model (`build_dict`, middleware.py lines 172-183) -/

/-- One data row of the CDX JSON table, under the header
`["timestamp","original","statuscode","digest"]` that the middleware itself
requests via `fl=timestamp,original,statuscode,digest`. -/
structure CdxRow where
  timestamp : String
  original : String
  statuscode : String
  digest : String
deriving DecidableEq

/-- Model of a CDX response body at the level of its JSON parse: `malformed`
models a body on which `json.loads` raises `JSONDecodeError`; `table rows`
models a parsed array `data` with the standard header row, `rows` being
`data[1:]` (so `table []` covers every `len(data) < 2` body). -/
inductive CdxBody where
  | malformed
  | table (rows : List CdxRow)
deriving DecidableEq

/-- The dictionary `build_dict` produces for one row: the four CDX fields
plus the derived `datetime` (here directly its epoch seconds; the Python code
stores the `datetime` object and only ever calls `.timestamp()` on it and
tests it for truthiness, and a `datetime` object is always truthy).
`datetime = none` models the `ValueError` branch that stores `None`. -/
structure Snapshot where
  timestamp : String
  original : String
  statuscode : String
  digest : String
  datetime : Option Int
deriving DecidableEq

/-- Translation of `build_dict` (middleware.py lines 172-183) for a row under
the standard header. -/
def build_dict (row : CdxRow) : Snapshot :=
  { timestamp := row.timestamp
    original := row.original
    statuscode := row.statuscode
    digest := row.digest
    datetime := strptime14 row.timestamp }

/-! ### The snapshot selector (`filter_snapshots`, middleware.py lines 207-247)

The Python loop carries three mutable variables: `filtered_snapshots`,
`initial_snapshot` and `last_digest`.  They are packaged into `LoopState`;
one loop iteration is `stepEntry`, split into the pre-filter, the anchor
block (lines 227-233) and the window/digest tail (lines 235-245), whose
`break` is modelled by `StepOut.stop`. -/

structure LoopState where
  filtered : List Snapshot
  initial : Option Snapshot
  lastDigest : Option String
deriving DecidableEq

/-- Outcome of one loop iteration: continue with a new state, or `break`
returning the final list. -/
inductive StepOut where
  | cont (st : LoopState)
  | stop (acc : List Snapshot)
deriving DecidableEq

/-- The anchor block (middleware.py lines 227-233): while nothing has been
emitted, an entry past the window start emits the pending anchor (if any) and
records its digest; an entry at or before the window start becomes the new
pending anchor. -/
def anchorStep (tr : Int × Int) (s : Snapshot) (ts : Int) (st : LoopState) : LoopState :=
  if st.filtered.isEmpty then
    if tr.1 < ts then
      match st.initial with
      | some ini => { st with filtered := st.filtered ++ [ini], lastDigest := some ini.digest }
      | none => st
    else { st with initial := some s }
  else st

/-- The window/digest tail of one iteration (middleware.py lines 235-245):
skip entries before the window, `break` past the window end, skip an entry
whose digest equals the last emitted digest, otherwise emit it. -/
def tailStep (tr : Int × Int) (s : Snapshot) (ts : Int) (st : LoopState) : StepOut :=
  if ts < tr.1 then .cont st
  else if tr.2 < ts then .stop st.filtered
  else if st.lastDigest = some s.digest then .cont st
  else .cont { st with filtered := st.filtered ++ [s], lastDigest := some s.digest }

/-- One full iteration of the `filter_snapshots` loop (middleware.py lines
212-245): skip entries with no parsed datetime (line 213), a non-digit status
code (line 219) or a status ≥ 300 (line 224); otherwise run the anchor block
and then the window/digest tail. -/
def stepEntry (tr : Int × Int) (s : Snapshot) (st : LoopState) : StepOut :=
  match s.datetime with
  | none => .cont st
  | some ts =>
    if pyIsdigit s.statuscode = false then .cont st
    else if 300 ≤ statuscodeVal s.statuscode then .cont st
    else tailStep tr s ts (anchorStep tr s ts st)

/-- The loop of `filter_snapshots`, folded over the remaining entries. -/
def filterSnapsAux (tr : Int × Int) : List Snapshot → LoopState → List Snapshot
  | [], st => st.filtered
  | s :: rest, st =>
    match stepEntry tr s st with
    | .cont st2 => filterSnapsAux tr rest st2
    | .stop acc => acc

/-- Translation of `filter_snapshots` (middleware.py lines 207-247): run the
loop from the initial state `filtered_snapshots = []`,
`initial_snapshot = None`, `last_digest = None`. -/
def filter_snapshots (tr : Int × Int) (snaps : List Snapshot) : List Snapshot :=
  filterSnapsAux tr snaps { filtered := [], initial := none, lastDigest := none }

/-- The pre-filter condition of the loop, read off middleware.py lines
213-225: an entry survives iff its timestamp parsed, its status-code field is
all digits, and its numeric status code is < 300. -/
def keepEntry (s : Snapshot) : Bool :=
  s.datetime.isSome && pyIsdigit s.statuscode && decide (statuscodeVal s.statuscode < 300)

/-! ### Scrapy request/response model

A Scrapy `Request` is modelled by the attributes the middleware reads or
writes: `url`, `dont_filter`, and the `meta` keys it uses.  The request
stored under `wayback_machine_original_request` is modelled by its URL, the
only attribute of it the middleware ever consumes besides `replace`.  A
`Response` is modelled by `url`, `status` and its body at the level of the
JSON parse. -/

structure SimpleReq where
  url : String
deriving DecidableEq

/-- The `request.meta` keys touched by the middleware; a key that is absent
from the dict is `none`/`false`.  `handle_httpstatus_list` is set by the
middleware but only ever read by the Scrapy engine, so it is not modelled. -/
structure Meta where
  origReq : Option SimpleReq := none
  cdxRequest : Bool := false
  waybackUrl : Option String := none
  waybackTime : Option Int := none
  retryTimes : Option Nat := none
deriving DecidableEq

structure MRequest where
  url : String
  dontFilter : Bool
  meta : Meta
deriving DecidableEq

structure MResponse where
  url : String
  status : Nat
  body : CdxBody
deriving DecidableEq

/-- Python truthiness of `meta.get(key)` for a string-valued key: the key is
present and the string is nonempty. -/
def pyTruthyOptStr : Option String → Bool
  | none => false
  | some s => !s.isEmpty

/-- The `robots_txt` class attribute (middleware.py line 19). -/
def robots_txt : String := "https://web.archive.org/robots.txt"

/-- Model of Python `s.split(sep, 1)`: one split at the first occurrence of
`sep`, or the whole string if `sep` does not occur. -/
def pySplit1 (s sep : String) : List String :=
  match s.splitOn sep with
  | [] => [s]
  | [a] => [a]
  | a :: rest => [a, String.intercalate sep rest]

/-- Model of Python `s.strip(c)` for a single character: drop every leading
and trailing occurrence of `c`. -/
def pyStrip (s : String) (c : Char) : String :=
  String.mk (((s.toList.dropWhile (fun x => x = c)).reverse.dropWhile (fun x => x = c)).reverse)

/-- ASCII bytes `pathname2url` (i.e. `urllib.parse.quote` with `safe='/'`)
leaves unescaped: letters, digits, and `_ . - ~ /`. -/
def isSafeByte (b : UInt8) : Bool :=
  (65 ≤ b && b ≤ 90) || (97 ≤ b && b ≤ 122) || (48 ≤ b && b ≤ 57) ||
    b == 95 || b == 46 || b == 45 || b == 126 || b == 47

/-- Upper-case hexadecimal digit for `n < 16`. -/
def hexDigit (n : Nat) : Char :=
  if n < 10 then Char.ofNat (48 + n) else Char.ofNat (55 + n)

/-- Model of `pathname2url` on a POSIX system: percent-encode every UTF-8
byte outside the always-safe set, keeping `'/'`. -/
def pathname2url (s : String) : String :=
  s.toUTF8.toList.foldl
    (fun acc b =>
      if isSafeByte b then acc.push (Char.ofNat b.toNat)
      else acc ++ "%" ++ String.mk [hexDigit (b.toNat / 16), hexDigit (b.toNat % 16)])
    ""

/-- Translation of `build_cdx_request` (middleware.py lines 126-157): strip
the scheme and any port, strip surrounding slashes, percent-encode, and build
the CDX query request tagged with `wayback_machine_cdx_request` and the
original request. -/
def build_cdx_request (request : MRequest) : MRequest :=
  let url := request.url
  let base_url :=
    match url.splitOn "://" with
    | [] => pyStrip url '/'
    | [_] => pyStrip url '/'
    | _ :: rest =>
      let after := String.intercalate "://" rest
      let b := pyStrip ((pySplit1 after ":").headD "") '/'
      if b = "" then url else b
  let cdx_url := "https://web.archive.org/cdx/search/cdx?url=" ++ pathname2url base_url
      ++ "&output=json&fl=timestamp,original,statuscode,digest"
  { url := cdx_url
    dontFilter := true
    meta := { origReq := some { url := request.url }, cdxRequest := true } }

/-- Translation of `process_request` (middleware.py lines 57-73): `none`
models Python `None` (the request proceeds unchanged); `some r` models
returning the substituted CDX request.  Requests for `robots.txt`, requests
tagged with a truthy `wayback_machine_url`, and requests tagged
`wayback_machine_cdx_request` pass through. -/
def process_request (request : MRequest) : Option MRequest :=
  if request.url = robots_txt then none
  else if pyTruthyOptStr request.meta.waybackUrl then none
  else if request.meta.cdxRequest then none
  else some (build_cdx_request request)

/-- The `snapshot_url_template` applied to one selected snapshot
(middleware.py lines 21 and 191). -/
def snapshotUrl (snap : Snapshot) : String :=
  "https://web.archive.org/web/" ++ snap.timestamp ++ "id_/" ++ snap.original

/-- Translation of `build_snapshot_requests` (middleware.py lines 159-205),
given the original request already extracted from `meta` (the code reads
`meta['wayback_machine_original_request']` inside the loop; a missing key is
handled in `process_response` below).  A `malformed` body models the
`JSONDecodeError` path returning `[]`; `len(data) < 2` is `rows = []`; the
remaining rows are turned into dicts, filtered, and mapped to snapshot-fetch
requests tagged with the original request, the archive URL and the archived
instant. -/
def build_snapshot_requests (tr : Int × Int) (response : MResponse) (orig : SimpleReq) :
    List MRequest :=
  match response.body with
  | .malformed => []
  | .table rows =>
    if rows.isEmpty then []
    else
      let snapshots := rows.map build_dict
      let filtered := filter_snapshots tr snapshots
      filtered.map (fun snap =>
        { url := snapshotUrl snap
          dontFilter := true
          meta := { origReq := some orig
                    cdxRequest := false
                    waybackUrl := some (snapshotUrl snap)
                    waybackTime := snap.datetime
                    retryTimes := none } })

/-- What `process_response` hands back to Scrapy: either a new request (the
retry path) or a response. -/
inductive MiddlewareResult where
  | req (r : MRequest)
  | resp (r : MResponse)
deriving DecidableEq

/-- Result of one `process_response` call: the returned value plus the list
of snapshot requests pushed into the scheduler by the CDX branch (empty on
every other path). -/
structure ProcessedResponse where
  result : MiddlewareResult
  enqueued : List MRequest
deriving DecidableEq

/-- An empty synthesized `Response(url, status)` body (`json.loads('')`
raises, so as a `CdxBody` it is `malformed`; these bodies are never parsed). -/
def emptyBody : CdxBody := .malformed

/-- Translation of `process_response` (middleware.py lines 75-124).
Branch order follows the source: (1) error statuses ≥ 400 on non-CDX
requests: 404 surfaced as-is, ≥ 500 retried while `retry_times < 3` by a
copy of the request with the counter incremented and `dont_filter` set,
otherwise surfaced as-is; (2) CDX responses: build snapshot requests, surface
a synthesized 404 for the original URL when there are none (a missing
`wayback_machine_original_request` key raises `KeyError`, caught by the
enclosing `except`, which returns the response unchanged), otherwise enqueue
them all and surface a synthesized 200 for the original URL; (3) snapshot
responses: restore the original URL; (4) anything else passes through. -/
def process_response (tr : Int × Int) (request : MRequest) (response : MResponse) :
    ProcessedResponse :=
  let meta := request.meta
  if 400 ≤ response.status ∧ meta.cdxRequest = false then
    if response.status = 404 then { result := .resp response, enqueued := [] }
    else if 500 ≤ response.status then
      let retries := meta.retryTimes.getD 0
      if retries < 3 then
        let newMeta := { meta with retryTimes := some (retries + 1) }
        let newReq := { request with dontFilter := true, meta := newMeta }
        { result := .req newReq, enqueued := [] }
      else { result := .resp response, enqueued := [] }
    else { result := .resp response, enqueued := [] }
  else if meta.cdxRequest then
    match meta.origReq with
    | none => { result := .resp response, enqueued := [] }
    | some orig =>
      let snapshot_requests := build_snapshot_requests tr response orig
      if snapshot_requests.isEmpty then
        { result := .resp { url := orig.url, status := 404, body := emptyBody }, enqueued := [] }
      else
        { result := .resp { url := orig.url, status := 200, body := emptyBody }
          enqueued := snapshot_requests }
  else if pyTruthyOptStr meta.waybackUrl then
    match meta.origReq with
    | some orig => { result := .resp { response with url := orig.url }, enqueued := [] }
    | none => { result := .resp response, enqueued := [] }
  else { result := .resp response, enqueued := [] }

/-! ### Sortedness of the index listing

The CDX service returns rows in ascending timestamp order; the claims state
this as a precondition.  An entry with an unparsable timestamp has no
instant, so the order only constrains entries whose instants exist. -/

/-- Comparison of two entries by instant; entries without an instant are
unconstrained. -/
def instLEb (a b : Snapshot) : Bool :=
  match a.datetime, b.datetime with
  | some ta, some tb => ta ≤ tb
  | _, _ => true

/-- Consecutive-pairs ascending order by instant. -/
def sortedByInstantB : List Snapshot → Bool
  | [] => true
  | [_] => true
  | a :: b :: rest => instLEb a b && sortedByInstantB (b :: rest)

/-! ### Invariants of the selector loop -/

/-- The digest invariant of the `filter_snapshots` loop: the emitted list has
pairwise-distinct consecutive digests, and `last_digest` is the digest of the
most recently emitted entry. -/
def DigestInv (st : LoopState) : Prop :=
  st.filtered.Chain' (fun a b => a.digest ≠ b.digest) ∧
  ∀ x, st.filtered.getLast? = some x → st.lastDigest = some x.digest

theorem digestInv_anchorStep (tr : Int × Int) (s : Snapshot) (ts : Int) (st : LoopState)
    (h : DigestInv st) : DigestInv (anchorStep tr s ts st) := by
  obtain ⟨hch, hlast⟩ := h
  unfold anchorStep
  split
  · split
    · cases hini : st.initial with
      | none => exact ⟨hch, hlast⟩
      | some ini =>
        rename_i hemp _
        have hfil : st.filtered = [] := by simpa using hemp
        refine ⟨?_, ?_⟩
        · simp [hfil]
        · intro x hx
          simp [hfil] at hx
          simp [hx]
    · exact ⟨hch, hlast⟩
  · exact ⟨hch, hlast⟩

theorem digestInv_tailStep (tr : Int × Int) (s : Snapshot) (ts : Int) (st : LoopState)
    (h : DigestInv st) :
    (∀ st2, tailStep tr s ts st = .cont st2 → DigestInv st2) ∧
    (∀ acc, tailStep tr s ts st = .stop acc →
      acc.Chain' (fun a b => a.digest ≠ b.digest)) := by
  obtain ⟨hch, hlast⟩ := h
  unfold tailStep
  split_ifs with h1 h2 h3
  · exact ⟨fun st2 he => by cases he; exact ⟨hch, hlast⟩, fun acc he => (nomatch he)⟩
  · exact ⟨fun st2 he => (nomatch he), fun acc he => by cases he; exact hch⟩
  · exact ⟨fun st2 he => by cases he; exact ⟨hch, hlast⟩, fun acc he => (nomatch he)⟩
  · refine ⟨fun st2 he => ?_, fun acc he => (nomatch he)⟩
    cases he
    refine ⟨?_, ?_⟩
    · rw [List.chain'_append]
      refine ⟨hch, List.chain'_singleton s, ?_⟩
      intro x hx y hy
      simp at hy
      subst hy
      have hd := hlast x (by simpa using hx)
      intro hcontra
      exact h3 (by rw [hd, hcontra])
    · intro x hx
      rw [List.getLast?_concat] at hx
      cases hx
      rfl

theorem digestInv_stepEntry (tr : Int × Int) (s : Snapshot) (st : LoopState)
    (h : DigestInv st) :
    (∀ st2, stepEntry tr s st = .cont st2 → DigestInv st2) ∧
    (∀ acc, stepEntry tr s st = .stop acc →
      acc.Chain' (fun a b => a.digest ≠ b.digest)) := by
  unfold stepEntry
  cases hdt : s.datetime with
  | none => exact ⟨fun st2 he => by cases he; exact h, fun acc he => (nomatch he)⟩
  | some ts =>
    split_ifs with h1 h2
    · exact ⟨fun st2 he => by cases he; exact h, fun acc he => (nomatch he)⟩
    · exact ⟨fun st2 he => by cases he; exact h, fun acc he => (nomatch he)⟩
    · exact digestInv_tailStep tr s ts (anchorStep tr s ts st)
        (digestInv_anchorStep tr s ts st h)

theorem chain_filterSnapsAux (tr : Int × Int) :
    ∀ (l : List Snapshot) (st : LoopState), DigestInv st →
    (filterSnapsAux tr l st).Chain' (fun a b => a.digest ≠ b.digest) := by
  intro l
  induction l with
  | nil => exact fun st h => h.1
  | cons s rest ih =>
    intro st h
    rw [filterSnapsAux]
    cases hst : stepEntry tr s st with
    | cont st2 => exact ih st2 ((digestInv_stepEntry tr s st h).1 st2 hst)
    | stop acc => exact (digestInv_stepEntry tr s st h).2 acc hst

/-- The subsequence invariant of the `filter_snapshots` loop, relative to the
entries already scanned: the emitted list is a subsequence of the scanned
prefix and, while nothing has been emitted, the pending anchor is one of the
scanned entries. -/
def SubInv (seen : List Snapshot) (st : LoopState) : Prop :=
  List.Sublist st.filtered seen ∧
  (st.filtered = [] → ∀ ini, st.initial = some ini → List.Sublist [ini] seen)

theorem subInv_anchorStep (tr : Int × Int) (s : Snapshot) (ts : Int) (st : LoopState)
    (seen : List Snapshot) (h : SubInv seen st) :
    List.Sublist (anchorStep tr s ts st).filtered seen ∧
    ((anchorStep tr s ts st).filtered = [] → ∀ ini, (anchorStep tr s ts st).initial = some ini →
      List.Sublist [ini] (seen ++ [s])) := by
  obtain ⟨hsub, hini⟩ := h
  have hweak : ∀ l : List Snapshot, List.Sublist l seen → List.Sublist l (seen ++ [s]) :=
    fun l hl => hl.trans (List.sublist_append_left seen [s])
  unfold anchorStep
  split
  · split
    · cases hin : st.initial with
      | none => exact ⟨hsub, fun hf ini hi => hweak [ini] (hini hf ini hi)⟩
      | some ini0 =>
        rename_i hemp _
        have hfil : st.filtered = [] := by simpa using hemp
        refine ⟨?_, ?_⟩
        · simpa [hfil] using hini hfil ini0 hin
        · intro hf
          simp [hfil] at hf
    · rename_i hemp _
      have hfil : st.filtered = [] := by simpa using hemp
      refine ⟨hsub, ?_⟩
      intro _ ini hi
      simp only at hi
      cases hi
      exact List.sublist_append_right seen [s]
  · exact ⟨hsub, fun hf ini hi => hweak [ini] (hini hf ini hi)⟩

theorem subInv_tailStep (tr : Int × Int) (s : Snapshot) (ts : Int) (st : LoopState)
    (seen : List Snapshot)
    (ha1 : List.Sublist st.filtered seen)
    (ha2 : st.filtered = [] → ∀ ini, st.initial = some ini → List.Sublist [ini] (seen ++ [s])) :
    (∀ st2, tailStep tr s ts st = .cont st2 → SubInv (seen ++ [s]) st2) ∧
    (∀ acc, tailStep tr s ts st = .stop acc → List.Sublist acc (seen ++ [s])) := by
  have hweak : ∀ l : List Snapshot, List.Sublist l seen → List.Sublist l (seen ++ [s]) :=
    fun l hl => hl.trans (List.sublist_append_left seen [s])
  unfold tailStep
  split_ifs with h3 h4 h5
  · exact ⟨fun st2 he => by cases he; exact ⟨hweak _ ha1, ha2⟩, fun acc he => (nomatch he)⟩
  · exact ⟨fun st2 he => (nomatch he), fun acc he => by cases he; exact hweak _ ha1⟩
  · exact ⟨fun st2 he => by cases he; exact ⟨hweak _ ha1, ha2⟩, fun acc he => (nomatch he)⟩
  · refine ⟨fun st2 he => ?_, fun acc he => (nomatch he)⟩
    cases he
    refine ⟨ha1.append (List.Sublist.refl [s]), ?_⟩
    intro hf
    simp at hf

theorem subInv_stepEntry (tr : Int × Int) (s : Snapshot) (st : LoopState)
    (seen : List Snapshot) (h : SubInv seen st) :
    (∀ st2, stepEntry tr s st = .cont st2 → SubInv (seen ++ [s]) st2) ∧
    (∀ acc, stepEntry tr s st = .stop acc → List.Sublist acc (seen ++ [s])) := by
  obtain ⟨hsub, hini⟩ := h
  have hweak : ∀ l : List Snapshot, List.Sublist l seen → List.Sublist l (seen ++ [s]) :=
    fun l hl => hl.trans (List.sublist_append_left seen [s])
  have hskip : SubInv (seen ++ [s]) st :=
    ⟨hweak _ hsub, fun hf ini hi => hweak [ini] (hini hf ini hi)⟩
  unfold stepEntry
  cases hdt : s.datetime with
  | none => exact ⟨fun st2 he => by cases he; exact hskip, fun acc he => (nomatch he)⟩
  | some ts =>
    split_ifs with h1 h2
    · exact ⟨fun st2 he => by cases he; exact hskip, fun acc he => (nomatch he)⟩
    · exact ⟨fun st2 he => by cases he; exact hskip, fun acc he => (nomatch he)⟩
    · have ha := subInv_anchorStep tr s ts st seen ⟨hsub, hini⟩
      exact subInv_tailStep tr s ts (anchorStep tr s ts st) seen ha.1 ha.2

theorem sublist_filterSnapsAux (tr : Int × Int) :
    ∀ (l : List Snapshot) (st : LoopState) (seen : List Snapshot), SubInv seen st →
    List.Sublist (filterSnapsAux tr l st) (seen ++ l) := by
  intro l
  induction l with
  | nil =>
    intro st seen h
    simpa using h.1
  | cons s rest ih =>
    intro st seen h
    rw [filterSnapsAux]
    have hstep := subInv_stepEntry tr s st seen h
    cases hst : stepEntry tr s st with
    | cont st2 =>
      have := ih st2 (seen ++ [s]) (hstep.1 st2 hst)
      simpa [List.append_assoc] using this
    | stop acc =>
      have h1 := hstep.2 acc hst
      have h2 : List.Sublist (seen ++ [s]) (seen ++ s :: rest) :=
        (List.nil_sublist rest).cons₂ s |>.append_left seen
      exact h1.trans h2

/-- Dropped entries do not affect the loop: an entry failing the pre-filter
leaves the state unchanged. -/
theorem stepEntry_of_not_keep (tr : Int × Int) (s : Snapshot) (st : LoopState)
    (h : keepEntry s = false) : stepEntry tr s st = .cont st := by
  unfold keepEntry at h
  cases hdt : s.datetime with
  | none => simp [stepEntry, hdt]
  | some ts =>
    rw [hdt] at h
    simp only [Option.isSome_some, Bool.true_and, Bool.and_eq_false_iff] at h
    rcases h with h | h
    · simp [stepEntry, hdt, h]
    · have h300 : 300 ≤ statuscodeVal s.statuscode := by simpa using h
      simp [stepEntry, hdt, h300]

theorem filterSnapsAux_filter_keep (tr : Int × Int) :
    ∀ (l : List Snapshot) (st : LoopState),
    filterSnapsAux tr l st = filterSnapsAux tr (l.filter keepEntry) st := by
  intro l
  induction l with
  | nil => intro st; rfl
  | cons s rest ih =>
    intro st
    cases hk : keepEntry s with
    | false =>
      rw [List.filter_cons_of_neg (by simp [hk]), filterSnapsAux,
        stepEntry_of_not_keep tr s st hk]
      exact ih st
    | true =>
      rw [List.filter_cons_of_pos (by simp [hk]), filterSnapsAux, filterSnapsAux]
      cases hst : stepEntry tr s st with
      | cont st2 => exact ih st2
      | stop acc => rfl

/-- The initial loop state of `filter_snapshots` satisfies the subsequence
invariant for any scanned prefix. -/
theorem subInv_init (seen : List Snapshot) :
    SubInv seen { filtered := [], initial := none, lastDigest := none } :=
  ⟨List.nil_sublist seen, fun _ _ hi => (nomatch hi)⟩

/-! ### Concrete fixtures for witnesses and counterexamples -/

def origUrl : String := "http://example.com/"

/-- The single pre-window entry of Scenario B: instant 1 (epoch second 1),
status 200, digest A; used against the window `(5, 10)`. -/
def entryT0A : Snapshot := build_dict ⟨"19700101000001", origUrl, "200", "A"⟩

/-- An in-window entry with digest A at instant 6. -/
def entryT6A : Snapshot := build_dict ⟨"19700101000006", origUrl, "200", "A"⟩

/-- An in-window entry with digest A at instant 7. -/
def entryT7A : Snapshot := build_dict ⟨"19700101000007", origUrl, "200", "A"⟩

/-- An in-window entry with a 3-character status code beginning with 4. -/
def entry404 : Snapshot := build_dict ⟨"19700101000006", origUrl, "404", "X"⟩

/-! ### C1 -/

/-- Claim C1 as stated is false on the code: for the single parseable entry
`entryT0A` with status 200, digest A and instant 1, strictly before the
window `(5, 10)`, `filter_snapshots` does NOT return the one-element list
containing it (it returns `[]`: the pending anchor at line 233 of
middleware.py is only ever appended when a later entry with a timestamp past
the window start is scanned, which never happens here). -/
theorem c1_sole_pre_window_counterexample :
    filter_snapshots (5, 10) [entryT0A] ≠ [entryT0A] := by decide

/-- C1 (amended): for every index listing consisting of a single parseable
entry whose instant is strictly before `window.start`, the Snapshot Selector
emits NOTHING: the sole pre-window entry is recorded as the pending anchor
but, since no later entry crosses the window start, it is never emitted and
`select` returns the empty list. -/
theorem c1_sole_pre_window_entry (tr : Int × Int) (s : Snapshot) (t0 : Int)
    (hdt : s.datetime = some t0) (hlt : t0 < tr.1) :
    filter_snapshots tr [s] = [] := by
  have hnotlt : ¬ tr.1 < t0 := by omega
  unfold filter_snapshots
  rw [filterSnapsAux]
  simp only [stepEntry, hdt]
  split_ifs with h1 h2
  · rfl
  · rfl
  · simp [anchorStep, tailStep, hnotlt, hlt, filterSnapsAux]

/-- Witness for C1 (amended) at the Scenario B instance: entry at instant 1,
window `(5, 10)`. -/
theorem c1_sole_pre_window_entry_witness :
    entryT0A.datetime = some 1 ∧ (1 : Int) < 5 ∧
    filter_snapshots (5, 10) [entryT0A] = [] :=
  ⟨by decide, by decide, c1_sole_pre_window_entry (5, 10) entryT0A 1 (by decide) (by decide)⟩

/-! ### C2 -/

/-- Claim C2 as stated is false on the code: the entry `entry404`, whose
status-code field is exactly 3 characters and begins with `4`, is discarded
by the pre-filter (middleware.py line 224 skips every status ≥ 300, not just
those beginning with `3`), so it is not eligible and is not emitted even
though its instant 6 lies inside the window `(5, 10)`. -/
theorem c2_prefilter_counterexample :
    keepEntry entry404 = false ∧ filter_snapshots (5, 10) [entry404] = [] := by
  constructor
  · decide
  · decide

/-- C2 (amended): the Snapshot Selector's pre-filter discards exactly those
entries whose timestamp fails to parse, whose status-code field is not
composed entirely of digits, or whose numeric status code is ≥ 300 (so 3xx,
4xx and 5xx entries are all discarded, and a 3-character status code
beginning with `4` or `5` does NOT survive): filtering the input down to the
entries satisfying `keepEntry` first does not change the output, and every
emitted entry satisfies `keepEntry`. -/
theorem c2_prefilter_discard (tr : Int × Int) (l : List Snapshot) :
    filter_snapshots tr l = filter_snapshots tr (l.filter keepEntry) ∧
    ∀ s ∈ filter_snapshots tr l, keepEntry s = true := by
  have he : filter_snapshots tr l = filter_snapshots tr (l.filter keepEntry) :=
    filterSnapsAux_filter_keep tr l _
  refine ⟨he, ?_⟩
  intro s hs
  rw [he] at hs
  have hsub : List.Sublist (filter_snapshots tr (l.filter keepEntry)) (l.filter keepEntry) := by
    have := sublist_filterSnapsAux tr (l.filter keepEntry) _ [] (subInv_init [])
    simpa using this
  exact List.of_mem_filter (hsub.subset hs)

/-! ### C3 -/

/-- Claim C3, confirmed: for every input sequence sorted ascending by
instant, no two consecutive snapshots emitted by `filter_snapshots` have
equal digests (an entry is emitted only after the `last_digest` comparison at
line 241 of middleware.py, and the anchor emission establishes the same
invariant). -/
theorem c3_digest_run_collapse (tr : Int × Int) (l : List Snapshot)
    (_h : sortedByInstantB l = true) :
    (filter_snapshots tr l).Chain' (fun a b => a.digest ≠ b.digest) :=
  chain_filterSnapsAux tr l _ ⟨List.chain'_nil, fun _ hx => (nomatch hx)⟩

/-- Witness for C3 at a sorted two-entry run with identical digests in the
window `(5, 10)`. -/
theorem c3_digest_run_collapse_witness :
    sortedByInstantB [entryT6A, entryT7A] = true ∧
    (filter_snapshots (5, 10) [entryT6A, entryT7A]).Chain' (fun a b => a.digest ≠ b.digest) :=
  ⟨by decide, c3_digest_run_collapse (5, 10) [entryT6A, entryT7A] (by decide)⟩

/-! ### C10 -/

/-- Claim C10, confirmed: for every input list and window, the output of
`filter_snapshots` is a subsequence of its input — every emitted snapshot is
an input entry, each input entry appears at most once, and relative order is
preserved (all three are what `List.Sublist` asserts). -/
theorem c10_output_sublist (tr : Int × Int) (l : List Snapshot) :
    List.Sublist (filter_snapshots tr l) l := by
  have := sublist_filterSnapsAux tr l _ [] (subInv_init [])
  simpa using this

/-! ### Mediator fixtures -/

/-- Archive URL of the snapshot of `origUrl` at instant 6. -/
def snapUrl6 : String := "https://web.archive.org/web/19700101000006id_/http://example.com/"

/-- Meta of a snapshot-fetch request for `origUrl` with a given retry
counter. -/
def snapMetaRetry (rt : Option Nat) : Meta :=
  { origReq := some { url := origUrl }
    cdxRequest := false
    waybackUrl := some snapUrl6
    waybackTime := some 6
    retryTimes := rt }

/-- A snapshot-fetch request whose two previous attempts failed (the state in
which the third consecutive error response arrives). -/
def snapReqRetry2 : MRequest :=
  { url := snapUrl6, dontFilter := true, meta := snapMetaRetry (some 2) }

/-- A snapshot-fetch request whose three previous attempts failed. -/
def snapReqRetry3 : MRequest :=
  { url := snapUrl6, dontFilter := true, meta := snapMetaRetry (some 3) }

/-- A first-attempt snapshot-fetch request. -/
def snapReqFresh : MRequest :=
  { url := snapUrl6, dontFilter := true, meta := snapMetaRetry none }

def resp503 : MResponse := { url := snapUrl6, status := 503, body := .malformed }

def resp404snap : MResponse := { url := snapUrl6, status := 404, body := .malformed }

def resp200snap : MResponse := { url := snapUrl6, status := 200, body := .malformed }

/-- The retry copy built at middleware.py lines 85-91: the same request with
`dont_filter` set and the retry counter incremented. -/
def retryOf (request : MRequest) : MRequest :=
  let retries := request.meta.retryTimes.getD 0
  let newMeta := { request.meta with retryTimes := some (retries + 1) }
  { request with dontFilter := true, meta := newMeta }

/-- A CDX index-query request for `origUrl` (the meta that
`build_cdx_request` attaches, with a literal URL). -/
def cdxReqFix : MRequest :=
  { url := "https://web.archive.org/cdx/search/cdx?url=example.com&output=json&fl=timestamp,original,statuscode,digest"
    dontFilter := true
    meta := { origReq := some { url := origUrl }, cdxRequest := true } }

/-- A CDX response whose parsed table has a header row and no data rows. -/
def cdxRespEmpty : MResponse :=
  { url := "https://web.archive.org/cdx/search/cdx?url=example.com&output=json&fl=timestamp,original,statuscode,digest"
    status := 200
    body := .table [] }

/-! ### C4 -/

/-- Claim C4 as stated is false on the code: when a snapshot fetch has
already failed twice (retry counter 2) and the third consecutive 503 arrives,
`process_response` does NOT surface the 503 — it issues a fourth attempt
(`retries < 3` at middleware.py line 86 still holds for `retries = 2`). -/
theorem c4_retry_counterexample :
    (process_response (5, 10) snapReqRetry2 resp503).result = .req (retryOf snapReqRetry2) ∧
    (process_response (5, 10) snapReqRetry2 resp503).result ≠ .resp resp503 := by
  constructor
  · decide
  · decide

/-- C4 (amended): a response with status ≥ 500 for a non-index-query request
is retried by re-issuing a copy of the same request with an incremented retry
counter while the counter is below 3 — i.e. up to 3 retries and hence up to 4
attempts in total — and the error response is surfaced as-is only once the
counter has reached 3; in particular, when a snapshot fetch returns 503 three
consecutive times a fourth attempt IS issued, and the 503 is surfaced only
after the fourth attempt also fails. -/
theorem c4_retry (tr : Int × Int) (request : MRequest) (response : MResponse)
    (hc : request.meta.cdxRequest = false) (h5 : 500 ≤ response.status) :
    (request.meta.retryTimes.getD 0 < 3 →
      process_response tr request response =
        { result := .req (retryOf request), enqueued := [] }) ∧
    (3 ≤ request.meta.retryTimes.getD 0 →
      process_response tr request response =
        { result := .resp response, enqueued := [] }) := by
  have h400 : 400 ≤ response.status := by omega
  have h404 : ¬ response.status = 404 := by omega
  unfold process_response
  rw [if_pos ⟨h400, hc⟩, if_neg h404, if_pos h5]
  constructor
  · intro hr
    rw [if_pos hr]
    rfl
  · intro hr
    rw [if_neg (by omega)]

/-- Witness for C4 (amended): with the counter at 3, a fourth 503 is surfaced
as-is. -/
theorem c4_retry_witness :
    snapReqRetry3.meta.cdxRequest = false ∧ 500 ≤ resp503.status ∧
    process_response (5, 10) snapReqRetry3 resp503 =
      { result := .resp resp503, enqueued := [] } :=
  ⟨rfl, by decide,
    (c4_retry (5, 10) snapReqRetry3 resp503 rfl (by decide)).2 (by decide)⟩

/-! ### C5 -/

/-- Claim C5 as stated is false on the code: a snapshot-fetch response with
status 404 is surfaced by the error branch (middleware.py line 82) before the
URL-restoration branch is reached, so the surfaced response still carries the
archive-service URL, not the original request's URL. -/
theorem c5_identity_counterexample :
    (process_response (5, 10) snapReqFresh resp404snap).result = .resp resp404snap ∧
    resp404snap.url ≠ origUrl := by
  constructor
  · decide
  · decide

/-- C5 (amended): a snapshot-fetch response of status < 400 is surfaced with
the original request's URL restored (and the synthesized not-found and
acknowledgement responses of the index-query branch carry the original URL by
construction); snapshot-fetch responses with status ≥ 400, however, are
surfaced as-is with the archive-service URL. -/
theorem c5_identity_restoration (tr : Int × Int) (request : MRequest) (response : MResponse)
    (orig : SimpleReq)
    (hc : request.meta.cdxRequest = false)
    (hw : pyTruthyOptStr request.meta.waybackUrl = true)
    (ho : request.meta.origReq = some orig)
    (hs : response.status < 400) :
    process_response tr request response =
      { result := .resp { response with url := orig.url }, enqueued := [] } := by
  unfold process_response
  rw [if_neg ?hn, if_neg (by simp [hc]), if_pos hw, ho]
  case hn =>
    rintro ⟨h1, _⟩
    omega

/-- Witness for C5 (amended): a 200 snapshot response is surfaced with the
original URL restored. -/
theorem c5_identity_restoration_witness :
    snapReqFresh.meta.cdxRequest = false ∧
    pyTruthyOptStr snapReqFresh.meta.waybackUrl = true ∧
    snapReqFresh.meta.origReq = some { url := origUrl } ∧
    resp200snap.status < 400 ∧
    process_response (5, 10) snapReqFresh resp200snap =
      { result := .resp { url := origUrl, status := 200, body := .malformed }
        enqueued := [] } :=
  ⟨rfl, by decide, rfl, by decide,
    c5_identity_restoration (5, 10) snapReqFresh resp200snap { url := origUrl }
      rfl (by decide) rfl (by decide)⟩

/-! ### C6 -/

/-- Claim C6, confirmed: a request already tagged as an index query
(`wayback_machine_cdx_request`) or as a snapshot fetch (a truthy
`wayback_machine_url`) passes through `process_request` unchanged (Python
`None`, modelled as `none`): it is never converted into another index query. -/
theorem c6_no_reclassification (request : MRequest)
    (h : request.meta.cdxRequest = true ∨ pyTruthyOptStr request.meta.waybackUrl = true) :
    process_request request = none := by
  unfold process_request
  split_ifs with h1 h2 h3
  · rfl
  · rfl
  · rfl
  · rcases h with h | h
    · exact absurd h h3
    · exact absurd h h2

/-- Witness for C6 at a concrete CDX-tagged request. -/
theorem c6_no_reclassification_witness :
    cdxReqFix.meta.cdxRequest = true ∧ process_request cdxReqFix = none :=
  ⟨rfl, c6_no_reclassification cdxReqFix (Or.inl rfl)⟩

/-! ### C7 -/

/-- Claim C7, confirmed: whenever an index-query response yields an empty
selected-snapshot set — the body fails to parse, the parsed listing is empty,
or the Selector filters everything out — `process_response` surfaces a
synthesized 404 response carrying the original request's URL and enqueues
zero snapshot requests (middleware.py lines 101-103). -/
theorem c7_empty_selection_not_found (tr : Int × Int) (request : MRequest)
    (response : MResponse) (orig : SimpleReq)
    (hc : request.meta.cdxRequest = true)
    (ho : request.meta.origReq = some orig)
    (he : response.body = .malformed ∨
      ∃ rows, response.body = .table rows ∧
        (rows = [] ∨ filter_snapshots tr (rows.map build_dict) = [])) :
    process_response tr request response =
      { result := .resp { url := orig.url, status := 404, body := emptyBody }
        enqueued := [] } := by
  have hempty : build_snapshot_requests tr response orig = [] := by
    rcases he with h | ⟨rows, hb, h⟩
    · simp [build_snapshot_requests, h]
    · rcases h with h | h
      · simp [build_snapshot_requests, hb, h]
      · simp [build_snapshot_requests, hb, h]
  unfold process_response
  rw [if_neg (by simp [hc]), if_pos hc, ho]
  simp [hempty]

/-- Witness for C7 at a concrete CDX request and an empty index table. -/
theorem c7_empty_selection_witness :
    cdxReqFix.meta.cdxRequest = true ∧ cdxRespEmpty.body = .table [] ∧
    process_response (5, 10) cdxReqFix cdxRespEmpty =
      { result := .resp { url := origUrl, status := 404, body := emptyBody }
        enqueued := [] } :=
  ⟨rfl, rfl,
    c7_empty_selection_not_found (5, 10) cdxReqFix cdxRespEmpty { url := origUrl }
      rfl rfl (Or.inr ⟨[], rfl, Or.inl rfl⟩)⟩

/-! ### C8 -/

/-- Claim C8 as stated is false on the code: the right-truncated archive
timestamp `2020` is NOT accepted — `str(2020)[::-1].zfill(14)[::-1]` pads on
the right, producing `"20200000000000"`, whose month field `00` makes
`datetime.strptime` raise, so `parse_time` returns `None` and the middleware
raises the startup failure for a configuration the claim says is accepted. -/
theorem c8_time_config_counterexample :
    set_time_range (.single (.pint 2020)) = none := by decide

/-- C8 (amended): time-window construction accepts an integer (or digit
string) strictly between `10^8` and `10^13` directly as a Unix epoch value,
and accepts any other value iff its decimal form right-padded with zeros to
14 digits is a valid `YYYYMMDDHHMMSS` instant — so truncations that include
at least year, month and day (e.g. `20200115`) are accepted, while `2020` and
`202001` are rejected (their padding yields month or day `00`) and every
float is rejected (`int(str(f))` raises on the decimal point); a pair
configuration fails at startup exactly when one of its components fails to
parse. -/
theorem c8_time_config :
    (∀ n : Int, 10 ^ 8 < n → n < 10 ^ 13 → parse_time (.pint n) = some n) ∧
    parse_time (.pint 20200115) = some 1579046400 ∧
    parse_time (.pstr "20200115") = some 1579046400 ∧
    parse_time (.pfloat 1500000000 "0") = none ∧
    parse_time (.pint 2020) = none ∧
    parse_time (.pint 202001) = none ∧
    (∀ a b : PyTimeValue, set_time_range (.pair a b) = none ↔
      (parse_time a = none ∨ parse_time b = none)) := by
  refine ⟨?_, by decide, by decide, by decide, by decide, by decide, ?_⟩
  · intro n h1 h2
    show (if 10 ^ 8 < n ∧ n < 10 ^ 13 then some n
      else strptime14 (zfillRight14 (toString n))) = some n
    rw [if_pos ⟨h1, h2⟩]
  · intro a b
    cases ha : parse_time a <;> cases hb : parse_time b <;>
      simp [set_time_range, ha, hb]

/-- Witness for C8 (amended) at the epoch value 200000000. -/
theorem c8_time_config_witness :
    (10 : Int) ^ 8 < 200000000 ∧ (200000000 : Int) < 10 ^ 13 ∧
    parse_time (.pint 200000000) = some 200000000 :=
  ⟨by norm_num, by norm_num, c8_time_config.1 200000000 (by norm_num) (by norm_num)⟩

/-! ### C9 -/

/-- Claim C9 as stated is false on the code: the accepted two-element
configuration `(200000000, 100000001)` (both in the epoch pass-through range)
is stored in the given order, producing a window whose first bound exceeds
its second — `set_time_range` never swaps or validates the pair. -/
theorem c9_window_order_counterexample :
    set_time_range (.pair (.pint 200000000) (.pint 100000001)) =
      some (200000000, 100000001) ∧
    ¬ ((200000000 : Int) ≤ 100000001) := by
  constructor
  · decide
  · decide

/-- C9 (amended): a single-value configuration always yields a window with
`start = end` (hence `start ≤ end`); a two-element pair is stored exactly as
parsed, in the given order, so `start ≤ end` holds only when the first
component parses to a value at most the second. -/
theorem c9_window_order :
    (∀ (v : PyTimeValue) (p : Int × Int), set_time_range (.single v) = some p → p.1 ≤ p.2) ∧
    (∀ (a b : PyTimeValue) (ta tb : Int), parse_time a = some ta → parse_time b = some tb →
      set_time_range (.pair a b) = some (ta, tb)) := by
  constructor
  · intro v p h
    simp only [set_time_range] at h
    cases hv : parse_time v with
    | none => rw [hv] at h; exact (nomatch h)
    | some t => rw [hv] at h; cases h; exact le_refl t
  · intro a b ta tb ha hb
    simp [set_time_range, ha, hb]

/-- Witness for C9 (amended) at a concrete single-value configuration. -/
theorem c9_window_order_witness :
    set_time_range (.single (.pint 200000000)) = some (200000000, 200000000) ∧
    (200000000 : Int) ≤ 200000000 :=
  ⟨by decide, c9_window_order.1 (.pint 200000000) (200000000, 200000000) (by decide)⟩

end WaybackMachine
